import Mathlib

/-!
Verification of the IronClassification repository.

The development shallowly embeds the two source files:

* src/keras/resnet.py   -- the architecture-assembly logic (ResnetBuilder
  and its layer-composition helpers);
* src/keras_model/train.py -- the training driver (callback list and
  backbone selection).

Keras layers are modelled as constructors of a symbolic tensor-expression
type: applying a layer to a tensor builds a node recording the layer kind
and the configuration arguments that the Python code passes.  The six
block constructors imported from variant_res_module are outside the
sources, so they are kept opaque: a block application is a node tagged
with the block name and the five arguments it receives.
-/

/-- The six block-constructor functions imported from variant_res_module.
Their bodies are not part of the sources; resnet.py only selects among
them and calls them, so they are modelled as opaque tags. -/
inductive BlockName where
  | resnet_identity_block
  | resnet_convolution_block
  | xresneXt_identity_block
  | xresneXt_convolution_block
  | dresneXt_identity_block
  | dresneXt_convolution_block
deriving DecidableEq

/-- Weight regularizers; the sources only use l2 with coefficient 1e-4,
modelled exactly as the rational 1/10000. -/
inductive Regularizer where
  | l2 (lam : Rat)
deriving DecidableEq

/-- Symbolic Keras tensor expressions.  Each constructor records the layer
call that produced the tensor, with the configuration arguments in the
order the Python code passes them. -/
inductive Tensor where
  | input (shape : List Nat)
  | batchNorm (axis : Nat) (x : Tensor)
  | activation (kind : String) (x : Tensor)
  | conv2D (filters : Nat) (kernel_size strides : Nat × Nat)
      (padding kernel_initializer : String) (kernel_regularizer : Regularizer)
      (x : Tensor)
  | maxPooling2D (pool_size strides : Nat × Nat) (padding : String) (x : Tensor)
  | averagePooling2D (pool_size strides : Nat × Nat) (x : Tensor)
  | flatten (x : Tensor)
  | dense (units : Nat) (kernel_initializer activation : String) (x : Tensor)
  | variantBlock (name : BlockName) (filters1 filters2 stage reps : Nat) (x : Tensor)
deriving DecidableEq

/-- The three global axis indices that _handle_dim_ordering assigns. -/
structure DimAxes where
  rowAxis : Nat
  colAxis : Nat
  channelAxis : Nat
deriving DecidableEq

/-- resnet.py lines 80-91: axis assignment depending on the backend image
dimension ordering. -/
def _handle_dim_ordering (dimOrdering : String) : DimAxes :=
  if dimOrdering = "tf" then
    ⟨1, 2, 3⟩
  else
    ⟨2, 3, 1⟩

/-- resnet.py lines 19-23: batch normalization followed by relu. -/
def _bn_relu (channelAxis : Nat) (input : Tensor) : Tensor :=
  Tensor.activation "relu" (Tensor.batchNorm channelAxis input)

/-- resnet.py lines 26-43: convolution, then batch normalization, then
relu; optional parameters default via setdefault. -/
def _conv_bn_relu (channelAxis : Nat) (filters : Nat) (kernel_size : Nat × Nat)
    (strides : Option (Nat × Nat)) (kernel_initializer : Option String)
    (padding : Option String) (kernel_regularizer : Option Regularizer)
    (input : Tensor) : Tensor :=
  _bn_relu channelAxis
    (Tensor.conv2D filters kernel_size (strides.getD (1, 1))
      (padding.getD "same") (kernel_initializer.getD "he_normal")
      (kernel_regularizer.getD (Regularizer.l2 (1 / 10000))) input)

/-- resnet.py lines 46-64: batch normalization, then relu, then
convolution; optional parameters default via setdefault. -/
def _bn_relu_conv (channelAxis : Nat) (filters : Nat) (kernel_size : Nat × Nat)
    (strides : Option (Nat × Nat)) (kernel_initializer : Option String)
    (padding : Option String) (kernel_regularizer : Option Regularizer)
    (input : Tensor) : Tensor :=
  Tensor.conv2D filters kernel_size (strides.getD (1, 1))
    (padding.getD "same") (kernel_initializer.getD "he_normal")
    (kernel_regularizer.getD (Regularizer.l2 (1 / 10000)))
    (_bn_relu channelAxis input)

/-- Calling one of the imported block constructors with the five arguments
resnet.py passes: (filters, filters*4, stage, repetitions, input). -/
def applyBlock (b : BlockName) (filters1 filters2 stage reps : Nat) (x : Tensor) : Tensor :=
  Tensor.variantBlock b filters1 filters2 stage reps x

/-- resnet.py lines 67-76: the loop over range(repetitions); iteration 0
uses conv_block unless is_first_layer, every other iteration uses
id_block. -/
def _residual_block (input : Tensor) ( id_block conv_block : BlockName)
    (filters repetitions stage : Nat) ( is_first_layer : Bool) : Tensor :=
  (List.range repetitions).foldl
    (fun acc i =>
      if i = 0 ∧ is_first_layer = false then
        applyBlock conv_block filters (filters * 4) stage repetitions acc
      else
        applyBlock id_block filters (filters * 4) stage repetitions acc)
    input

/-- Ceiling division, used for the shape of stride-s same-padded layers. -/
def ceilDiv (a b : Nat) : Nat := (a + b - 1) / b

/-- Output spatial extent of a convolution or pooling window: ceil(n / s)
under same padding, floor((n - k) / s) + 1 under valid padding. -/
def convOutDim (padding : String) (inDim k s : Nat) : Nat :=
  if padding = "same" then ceilDiv inDim s else (inDim - k) / s + 1

/-- Whether a block name is one of the three convolution (downsampling)
block constructors. -/
def isConvVariant : BlockName → Bool
  | BlockName.resnet_convolution_block => true
  | BlockName.xresneXt_convolution_block => true
  | BlockName.dresneXt_convolution_block => true
  | _ => false

/-- Static shape of a symbolic tensor, as K.int_shape returns it: a batch
entry (the unknown batch size, modelled as 0) followed by the data axes.
The layer cases follow the standard Keras shape rules.  The variantBlock
case is Modelled from the spec: the bodies of the six block constructors
live in variant_res_module, which is not among the sources; the spec says
the stages have increasing channel width and decreasing spatial
resolution, so a convolution block halves the spatial extent and sets the
channel axis to its second filter argument, and an identity block keeps
the spatial extent and sets the channel axis likewise.  No claim below
depends on the numbers this case produces. -/
def int_shape (axes : DimAxes) : Tensor → List Nat
  | Tensor.input s => 0 :: s
  | Tensor.batchNorm _ x => int_shape axes x
  | Tensor.activation _ x => int_shape axes x
  | Tensor.conv2D f k s pad _ _ x =>
      let sh := int_shape axes x
      ((sh.set axes.channelAxis f).set axes.rowAxis
          (convOutDim pad (sh.getD axes.rowAxis 0) k.1 s.1)).set axes.colAxis
        (convOutDim pad (sh.getD axes.colAxis 0) k.2 s.2)
  | Tensor.maxPooling2D p s pad x =>
      let sh := int_shape axes x
      (sh.set axes.rowAxis (convOutDim pad (sh.getD axes.rowAxis 0) p.1 s.1)).set
        axes.colAxis (convOutDim pad (sh.getD axes.colAxis 0) p.2 s.2)
  | Tensor.averagePooling2D p s x =>
      let sh := int_shape axes x
      (sh.set axes.rowAxis (convOutDim "valid" (sh.getD axes.rowAxis 0) p.1 s.1)).set
        axes.colAxis (convOutDim "valid" (sh.getD axes.colAxis 0) p.2 s.2)
  | Tensor.flatten x =>
      let sh := int_shape axes x
      [sh.headD 0, sh.tail.prod]
  | Tensor.dense u _ _ x =>
      let sh := int_shape axes x
      sh.dropLast ++ [u]
  | Tensor.variantBlock b _ f2 _ _ x =>
      let sh := int_shape axes x
      if isConvVariant b then
        ((sh.set axes.channelAxis f2).set axes.rowAxis
            (ceilDiv (sh.getD axes.rowAxis 0) 2)).set axes.colAxis
          (ceilDiv (sh.getD axes.colAxis 0) 2)
      else
        sh.set axes.channelAxis f2

/-- resnet.py lines 126-134: selection of the identity and convolution
block constructors from the block_fn string.  First component is id_block,
second is conv_block. -/
def selectBlocks (block_fn : String) : BlockName × BlockName :=
  if block_fn = "resnext" then
    (BlockName.xresneXt_identity_block, BlockName.xresneXt_identity_block)
  else if block_fn = "dresnext" then
    (BlockName.dresneXt_identity_block, BlockName.dresneXt_convolution_block)
  else
    (BlockName.resnet_identity_block, BlockName.resnet_convolution_block)

/-- resnet.py lines 145-152: the stage loop over enumerate(repetitions);
the stage with index 0 is built with is_first_layer=True, every later
stage with is_first_layer=False, and filters doubles after each stage. -/
def stageLoop ( id_block conv_block : BlockName) :
    List (Nat × Nat) → Nat → Tensor → Tensor
  | [], _, block => block
  | (i, r) :: rest, filters, block =>
      stageLoop id_block conv_block rest (filters * 2)
        (if i = 0 then
          _residual_block block id_block conv_block filters r i true
        else
          _residual_block block id_block conv_block filters r i false)

/-- resnet.py lines 104-167: ResnetBuilder.build.  The backend state
(image dimension ordering) is passed explicitly; raising an exception is
modelled as returning an error. -/
def ResnetBuilder.build (dimOrdering : String) (input_shape : List Nat)
    (num_outputs : Nat) (repetitions : List Nat) (block_fn : String) :
    Except String Tensor :=
  if input_shape.length ≠ 3 then
    Except.error "Input shape should be a tuple (nb_channels, nb_rows, nb_cols)"
  else
    let axes := _handle_dim_ordering dimOrdering
    let shape := if dimOrdering = "tf" then
        [input_shape.getD 1 0, input_shape.getD 2 0, input_shape.getD 0 0]
      else input_shape
    let blocks := selectBlocks block_fn
    let input := Tensor.input shape
    let conv1 := _conv_bn_relu axes.channelAxis 64 (7, 7) (some (2, 2)) none none none input
    let pool1 := Tensor.maxPooling2D (3, 3) (2, 2) "same" conv1
    let block := stageLoop blocks.1 blocks.2 (List.enum repetitions) 64 pool1
    let block := _bn_relu axes.channelAxis block
    let block_shape := int_shape axes block
    let pool2 := Tensor.averagePooling2D
      (block_shape.getD axes.rowAxis 0, block_shape.getD axes.colAxis 0) (1, 1) block
    let flatten1 := Tensor.flatten pool2
    Tensor.dense num_outputs "he_normal" "softmax" flatten1 |> Except.ok

/-- resnet.py lines 169-171. -/
def ResnetBuilder.build_resnet_18 (dimOrdering : String) (input_shape : List Nat)
    (num_outputs : Nat) (block_fun : String) : Except String Tensor :=
  ResnetBuilder.build dimOrdering input_shape num_outputs [2, 2, 2, 2] block_fun

/-- resnet.py lines 173-175. -/
def ResnetBuilder.build_resnet_34 (dimOrdering : String) (input_shape : List Nat)
    (num_outputs : Nat) (block_fun : String) : Except String Tensor :=
  ResnetBuilder.build dimOrdering input_shape num_outputs [3, 4, 6, 3] block_fun

/-- resnet.py lines 177-179. -/
def ResnetBuilder.build_resnet_50 (dimOrdering : String) (input_shape : List Nat)
    (num_outputs : Nat) (block_fun : String) : Except String Tensor :=
  ResnetBuilder.build dimOrdering input_shape num_outputs [3, 4, 6, 3] block_fun

/-- resnet.py lines 181-183. -/
def ResnetBuilder.build_resnet_101 (dimOrdering : String) (input_shape : List Nat)
    (num_outputs : Nat) (block_fun : String) : Except String Tensor :=
  ResnetBuilder.build dimOrdering input_shape num_outputs [3, 4, 23, 3] block_fun

/-- resnet.py lines 185-187. -/
def ResnetBuilder.build_resnet_152 (dimOrdering : String) (input_shape : List Nat)
    (num_outputs : Nat) (block_fun : String) : Except String Tensor :=
  ResnetBuilder.build dimOrdering input_shape num_outputs [3, 8, 36, 3] block_fun

/-- Keras callbacks, recording the constructor arguments train.py passes. -/
inductive Callback where
  | tensorBoard (log_dir : String)
  | earlyStopping (monitor : String) (patience : Nat) ( min_delta : Rat)
  | reduceLROnPlateau (monitor : String) (patience : Nat) (verbose : Nat)
  | modelCheckpoint (filepath : String) (period : Nat) (save_best_only : Bool)
      (monitor : String)
deriving DecidableEq

/-- train.py line 17; the log directory is os.path.join(keras_tb, hyper). -/
def tensorboard (keras_tb hyper : String) : Callback :=
  Callback.tensorBoard (keras_tb ++ "/" ++ hyper)

/-- train.py line 18. -/
def early_stopping : Callback :=
  Callback.earlyStopping "val_loss" 5 (1 / 1000)

/-- train.py line 19. -/
def lr_reduce : Callback :=
  Callback.reduceLROnPlateau "loss" 20 1

/-- train.py line 20. -/
def checkpoint (hyper : String) : Callback :=
  Callback.modelCheckpoint ("ckpt" ++ "/" ++ hyper ++ ".h5") 1 true "val_acc"

/-- train.py line 21: the callbacks list handed to fit_generator. -/
def callbacks (keras_tb hyper : String) : List Callback :=
  [tensorboard keras_tb hyper, lr_reduce, checkpoint hyper]

/-- Recognizes an EarlyStopping callback with any arguments. -/
def isEarlyStoppingCb : Callback → Bool
  | Callback.earlyStopping _ _ _ => true
  | _ => false

/-- train.py line 24. -/
def num_output : Nat := 7

/-- train.py lines 25-44: base_model selection by Config.backbone.  The
nine if branches are mutually exclusive string tests; a backbone outside
the nine leaves base_model undefined, modelled as none. -/
def backboneBuild (dimOrdering backbone : String) : Option (Except String Tensor) :=
  if backbone = "resnet50" then
    some (ResnetBuilder.build_resnet_50 dimOrdering [224, 224, 3] num_output "resnet")
  else if backbone = "resnet101" then
    some (ResnetBuilder.build_resnet_101 dimOrdering [224, 224, 3] num_output "resnet")
  else if backbone = "resnet152" then
    some (ResnetBuilder.build_resnet_152 dimOrdering [224, 224, 3] num_output "resnet")
  else if backbone = "xresnet50" then
    some (ResnetBuilder.build_resnet_50 dimOrdering [224, 224, 3] num_output "xresnet")
  else if backbone = "xresnet101" then
    some (ResnetBuilder.build_resnet_101 dimOrdering [224, 224, 3] num_output "xresnet")
  else if backbone = "xresnet152" then
    some (ResnetBuilder.build_resnet_152 dimOrdering [224, 224, 3] num_output "xresnet")
  else if backbone = "dresnet50" then
    some (ResnetBuilder.build_resnet_50 dimOrdering [224, 224, 3] num_output "dresnet")
  else if backbone = "dresnet101" then
    some (ResnetBuilder.build_resnet_101 dimOrdering [224, 224, 3] num_output "dresnet")
  else if backbone = "dresnet152" then
    some (ResnetBuilder.build_resnet_152 dimOrdering [224, 224, 3] num_output "dresnet")
  else
    none

/-- The names of the variant blocks occurring in a tensor expression, in
order from the input side to the output side. -/
def blocksOf : Tensor → List BlockName
  | Tensor.input _ => []
  | Tensor.batchNorm _ x => blocksOf x
  | Tensor.activation _ x => blocksOf x
  | Tensor.conv2D _ _ _ _ _ _ x => blocksOf x
  | Tensor.maxPooling2D _ _ _ x => blocksOf x
  | Tensor.averagePooling2D _ _ x => blocksOf x
  | Tensor.flatten x => blocksOf x
  | Tensor.dense _ _ _ x => blocksOf x
  | Tensor.variantBlock b _ _ _ _ x => blocksOf x ++ [b]

/-- The shape stored at the Input layer at the bottom of a tensor
expression, when there is one. -/
def inputShapeOf : Tensor → Option (List Nat)
  | Tensor.input s => some s
  | Tensor.batchNorm _ x => inputShapeOf x
  | Tensor.activation _ x => inputShapeOf x
  | Tensor.conv2D _ _ _ _ _ _ x => inputShapeOf x
  | Tensor.maxPooling2D _ _ _ x => inputShapeOf x
  | Tensor.averagePooling2D _ _ x => inputShapeOf x
  | Tensor.flatten x => inputShapeOf x
  | Tensor.dense _ _ _ x => inputShapeOf x
  | Tensor.variantBlock _ _ _ _ _ x => inputShapeOf x

/-- Specification-side sequential application of a list of block
constructors, each called with (filters, filters*4, stage, reps, acc);
the head of the list is applied first. -/
def blockChain (filters stage reps : Nat) (names : List BlockName) (input : Tensor) : Tensor :=
  names.foldl (fun acc b => applyBlock b filters (filters * 4) stage reps acc) input

/-- Specification-side stage loop: identical to stageLoop except that the
filters argument of stage i is written in the closed form 64 * 2 ^ i. -/
def stagesSpec ( id_block conv_block : BlockName) (reps : List Nat) (t : Tensor) : Tensor :=
  (List.enum reps).foldl
    (fun acc p =>
      if p.1 = 0 then
        _residual_block acc id_block conv_block (64 * 2 ^ p.1) p.2 p.1 true
      else
        _residual_block acc id_block conv_block (64 * 2 ^ p.1) p.2 p.1 false)
    t

/-- C1: the claim says block_fn resnext selects the X-variant identity
block as id_block and the X-variant convolution block as conv_block.  The
code instead assigns the X-variant identity block to both, and the
X-variant convolution block is selected for no block_fn value at all: it
is imported and never used. -/
theorem resnext_selects_identity_as_conv_block :
    selectBlocks "resnext"
        = (BlockName.xresneXt_identity_block, BlockName.xresneXt_identity_block)
    ∧ ∀ fn : String, (selectBlocks fn).2 ≠ BlockName.xresneXt_convolution_block := by
  refine ⟨rfl, ?_⟩
  intro fn
  unfold selectBlocks
  split
  · simp
  · split
    · simp
    · simp

/-- C2 counterexample: in the callbacks list that train.py passes to
fit_generator there is no EarlyStopping callback of any configuration, so
the list does not contain the EarlyStopping callback the claim names. -/
theorem callbacks_lack_early_stopping_eval :
    ((callbacks "tblogs" "resnet50").all fun c => !(isEarlyStoppingCb c)) = true
    ∧ early_stopping ∉ callbacks "tblogs" "resnet50" := by
  decide

/-- C2 amended: the callbacks list passed to the fit loop contains the
TensorBoard, ReduceLROnPlateau and ModelCheckpoint callbacks; the
EarlyStopping callback is constructed on line 18 but never added to the
list. -/
theorem callbacks_registered (keras_tb hyper : String) :
    tensorboard keras_tb hyper ∈ callbacks keras_tb hyper
    ∧ lr_reduce ∈ callbacks keras_tb hyper
    ∧ checkpoint hyper ∈ callbacks keras_tb hyper
    ∧ early_stopping ∉ callbacks keras_tb hyper := by
  refine ⟨?_, ?_, ?_, ?_⟩ <;>
    simp [callbacks, tensorboard, lr_reduce, checkpoint, early_stopping]

/-- C3: evaluating the training driver at backbone xresnet50 shows the
built model contains sixteen variant blocks and every one of them is a
plain ResNet block: the driver passes block_fun xresnet, which build does
not recognize (it tests for resnext), so the default ResNet branch is
taken.  This contradicts the claim that xresnet backbones produce
X-variant blocks. -/
theorem xresnet_backbone_builds_plain_resnet_blocks :
    (backboneBuild "tf" "xresnet50").map (fun e => e.toOption.map fun t =>
        (blocksOf t).all fun b => b == BlockName.resnet_identity_block
          || b == BlockName.resnet_convolution_block)
      = some (some true)
    ∧ (backboneBuild "tf" "xresnet50").map (fun e => e.toOption.map fun t =>
        (blocksOf t).length) = some (some 16) :=
  ⟨rfl, rfl⟩

/-- C6: _bn_relu applies batch normalization then relu; _conv_bn_relu
applies convolution, then batch normalization, then relu; _bn_relu_conv
applies batch normalization, then relu, then convolution; and when
strides, initializer, padding and regularizer are not supplied they
default to (1, 1), he_normal, same and l2(1e-4). -/
theorem layer_helper_composition (ax f : Nat) (ks : Nat × Nat) (t : Tensor) :
    _bn_relu ax t = Tensor.activation "relu" (Tensor.batchNorm ax t)
    ∧ _conv_bn_relu ax f ks none none none none t
        = Tensor.activation "relu" (Tensor.batchNorm ax
            (Tensor.conv2D f ks (1, 1) "same" "he_normal" (Regularizer.l2 (1 / 10000)) t))
    ∧ _bn_relu_conv ax f ks none none none none t
        = Tensor.conv2D f ks (1, 1) "same" "he_normal" (Regularizer.l2 (1 / 10000))
            (Tensor.activation "relu" (Tensor.batchNorm ax t)) :=
  ⟨rfl, rfl, rfl⟩

/-- A fold over List.range with a step that ignores the index is an
iterate. -/
lemma foldl_range_const (B : Tensor → Tensor) :
    ∀ (n : Nat) (t : Tensor),
      (List.range n).foldl (fun acc _ => B acc) t = B^[n] t := by
  intro n
  induction n with
  | zero => intro t; rfl
  | succ m ih =>
      intro t
      rw [List.range_succ, List.foldl_append, ih]
      simp [Function.iterate_succ_apply']

/-- A chain of one repeated block is an iterate of its application. -/
lemma blockChain_replicate (f s r : Nat) (c : BlockName) :
    ∀ (n : Nat) (t : Tensor),
      blockChain f s r (List.replicate n c) t
        = (fun x => applyBlock c f (f * 4) s r x)^[n] t := by
  intro n
  induction n with
  | zero => intro t; rfl
  | succ m ih =>
      intro t
      rw [List.replicate_succ, Function.iterate_succ_apply]
      exact ih _

/-- On a list of nonzero indices the residual-block step always takes the
id_block branch. -/
lemma foldl_step_no_zero ( id_block conv_block : BlockName) (f reps s : Nat) :
    ∀ (l : List Nat), (∀ i ∈ l, i ≠ 0) → ∀ (t : Tensor),
      l.foldl (fun acc i =>
          if i = 0 ∧ (false : Bool) = false then
            applyBlock conv_block f (f * 4) s reps acc
          else
            applyBlock id_block f (f * 4) s reps acc) t
        = (fun x => applyBlock id_block f (f * 4) s reps x)^[l.length] t := by
  intro l
  induction l with
  | nil => intro _ t; rfl
  | cons a l ih =>
      intro h t
      have ha : a ≠ 0 := h a (List.mem_cons_self a l)
      rw [List.foldl_cons, List.length_cons]
      rw [if_neg (fun hc => ha hc.1)]
      rw [Function.iterate_succ_apply]
      exact ih (fun i hi => h i (List.mem_cons_of_mem a hi)) _

/-- With is_first_layer true the residual-block step always takes the
id_block branch. -/
lemma foldl_step_first_true ( id_block conv_block : BlockName) (f reps s : Nat) :
    ∀ (l : List Nat) (t : Tensor),
      l.foldl (fun acc i =>
          if i = 0 ∧ (true : Bool) = false then
            applyBlock conv_block f (f * 4) s reps acc
          else
            applyBlock id_block f (f * 4) s reps acc) t
        = (fun x => applyBlock id_block f (f * 4) s reps x)^[l.length] t := by
  intro l
  induction l with
  | nil => intro t; rfl
  | cons a l ih =>
      intro t
      rw [List.foldl_cons, List.length_cons]
      rw [if_neg (by simp)]
      rw [Function.iterate_succ_apply]
      exact ih _

/-- A residual block with is_first_layer false and r = m + 1 repetitions
applies conv_block once and then id_block m times. -/
lemma residual_block_not_first ( id_block conv_block : BlockName) (f s m : Nat)
    (t : Tensor) :
    _residual_block t id_block conv_block f (m + 1) s false
      = (fun x => applyBlock id_block f (f * 4) s (m + 1) x)^[m]
          (applyBlock conv_block f (f * 4) s (m + 1) t) := by
  unfold _residual_block
  rw [List.range_succ_eq_map]
  show ((List.range m).map Nat.succ).foldl _
      (applyBlock conv_block f (f * 4) s (m + 1) t) = _
  rw [foldl_step_no_zero id_block conv_block f (m + 1) s ((List.range m).map Nat.succ)
      (by
        intro i hi
        rcases List.mem_map.mp hi with ⟨j, _, rfl⟩
        exact Nat.succ_ne_zero j)]
  simp

/-- A residual block with is_first_layer true applies id_block r times. -/
lemma residual_block_first_true ( id_block conv_block : BlockName) (f s r : Nat)
    (t : Tensor) :
    _residual_block t id_block conv_block f r s true
      = (fun x => applyBlock id_block f (f * 4) s r x)^[r] t := by
  unfold _residual_block
  rw [foldl_step_first_true id_block conv_block f r s (List.range r)]
  simp

/-- C5: for r at least 1, _residual_block applies exactly r block
constructors in sequence: with is_first_layer false the first applied is
conv_block and the remaining r - 1 are id_block, with is_first_layer true
all r applied are id_block, and with r = 0 the input is returned
unchanged. -/
theorem residual_block_sequence ( id_block conv_block : BlockName)
    (filters stage r : Nat) (first : Bool) (t : Tensor) (hr : 1 ≤ r) :
    _residual_block t id_block conv_block filters r stage false
        = blockChain filters stage r
            (conv_block :: List.replicate (r - 1) id_block) t
    ∧ _residual_block t id_block conv_block filters r stage true
        = blockChain filters stage r (List.replicate r id_block) t
    ∧ (conv_block :: List.replicate (r - 1) id_block).length = r
    ∧ (List.replicate r id_block).length = r
    ∧ _residual_block t id_block conv_block filters 0 stage first = t := by
  obtain ⟨m, rfl⟩ : ∃ m, r = m + 1 := ⟨r - 1, by omega⟩
  refine ⟨?_, ?_, by simp, by simp, rfl⟩
  · rw [residual_block_not_first]
    show _ = blockChain filters stage (m + 1) (List.replicate (m + 1 - 1) id_block)
        (applyBlock conv_block filters (filters * 4) stage (m + 1) t)
    rw [show m + 1 - 1 = m from rfl, blockChain_replicate]
  · rw [residual_block_first_true, blockChain_replicate]

/-- C5 witness at id_block resnet_identity_block, conv_block
resnet_convolution_block, filters 64, stage 1, r = 2, input a concrete
tensor. -/
theorem residual_block_sequence_check :
    (1 : Nat) ≤ 2
    ∧ (_residual_block (Tensor.input [3, 4, 5]) BlockName.resnet_identity_block
          BlockName.resnet_convolution_block 64 2 1 false
        = blockChain 64 1 2
            (BlockName.resnet_convolution_block ::
              List.replicate (2 - 1) BlockName.resnet_identity_block)
            (Tensor.input [3, 4, 5])
      ∧ _residual_block (Tensor.input [3, 4, 5]) BlockName.resnet_identity_block
          BlockName.resnet_convolution_block 64 2 1 true
        = blockChain 64 1 2 (List.replicate 2 BlockName.resnet_identity_block)
            (Tensor.input [3, 4, 5])
      ∧ (BlockName.resnet_convolution_block ::
          List.replicate (2 - 1) BlockName.resnet_identity_block).length = 2
      ∧ (List.replicate 2 BlockName.resnet_identity_block).length = 2
      ∧ _residual_block (Tensor.input [3, 4, 5]) BlockName.resnet_identity_block
          BlockName.resnet_convolution_block 64 0 1 false = Tensor.input [3, 4, 5]) :=
  ⟨by decide,
   residual_block_sequence BlockName.resnet_identity_block
     BlockName.resnet_convolution_block 64 1 2 false (Tensor.input [3, 4, 5])
     (by decide)⟩

/-- Generalized stage loop: starting the filters accumulator at 64 * 2 ^ k
on the stages enumerated from k, every stage with index i runs with
filters 64 * 2 ^ i. -/
lemma stageLoop_enumFrom ( id_block conv_block : BlockName) :
    ∀ (reps : List Nat) (k : Nat) (t : Tensor),
      stageLoop id_block conv_block (List.enumFrom k reps) (64 * 2 ^ k) t
        = (List.enumFrom k reps).foldl
            (fun acc p =>
              if p.1 = 0 then
                _residual_block acc id_block conv_block (64 * 2 ^ p.1) p.2 p.1 true
              else
                _residual_block acc id_block conv_block (64 * 2 ^ p.1) p.2 p.1 false)
            t := by
  intro reps
  induction reps with
  | nil => intro k t; rfl
  | cons r rest ih =>
      intro k t
      simp only [List.enumFrom, stageLoop, List.foldl_cons]
      rw [show 64 * 2 ^ k * 2 = 64 * 2 ^ (k + 1) by ring]
      exact ih (k + 1) _

/-- C4: the stage loop of ResnetBuilder.build, started at filters 64,
builds the stage with index i using filters 64 * 2 ^ i: it equals the
stage loop with that closed-form filter count, so the filter count doubles
from each stage to the next. -/
theorem stage_filters_double ( id_block conv_block : BlockName) (reps : List Nat)
    (t : Tensor) :
    stageLoop id_block conv_block (List.enum reps) 64 t
      = stagesSpec id_block conv_block reps t := by
  have h := stageLoop_enumFrom id_block conv_block reps 0 t
  simpa [stagesSpec, List.enum] using h

/-- C8: build raises exactly when the input shape does not have length 3,
before any layer is constructed (the error is returned with no tensor
built); on length-3 shapes the check passes and a model is returned. -/
theorem build_input_shape_check (dimOrdering : String) (input_shape : List Nat)
    (num_outputs : Nat) (repetitions : List Nat) (block_fn : String) :
    (input_shape.length ≠ 3 →
      ResnetBuilder.build dimOrdering input_shape num_outputs repetitions block_fn
        = Except.error "Input shape should be a tuple (nb_channels, nb_rows, nb_cols)")
    ∧ (input_shape.length = 3 →
      ∃ t, ResnetBuilder.build dimOrdering input_shape num_outputs repetitions block_fn
        = Except.ok t) := by
  constructor
  · intro h
    unfold ResnetBuilder.build
    rw [if_pos h]
  · intro h
    unfold ResnetBuilder.build
    rw [if_neg (by omega)]
    exact ⟨_, rfl⟩

/-- C8 witness: a length-2 shape is rejected with the exception message
and a length-3 shape passes the check. -/
theorem build_input_shape_check_inst :
    ResnetBuilder.build "tf" [224, 224] 7 [2, 2, 2, 2] "resnet"
        = Except.error "Input shape should be a tuple (nb_channels, nb_rows, nb_cols)"
    ∧ ∃ t, ResnetBuilder.build "tf" [3, 224, 224] 7 [2, 2, 2, 2] "resnet"
        = Except.ok t :=
  ⟨(build_input_shape_check "tf" [224, 224] 7 [2, 2, 2, 2] "resnet").1 (by decide),
   (build_input_shape_check "tf" [3, 224, 224] 7 [2, 2, 2, 2] "resnet").2 (by decide)⟩

/-- A fold whose step preserves the underlying input shape preserves it. -/
lemma inputShapeOf_foldl {α : Type} (step : Tensor → α → Tensor)
    (hstep : ∀ acc x, inputShapeOf (step acc x) = inputShapeOf acc) :
    ∀ (l : List α) (t : Tensor), inputShapeOf (l.foldl step t) = inputShapeOf t := by
  intro l
  induction l with
  | nil => intro t; rfl
  | cons a l ih => intro t; rw [List.foldl_cons, ih, hstep]

/-- Residual blocks preserve the underlying input shape. -/
lemma inputShapeOf_residual (t : Tensor) ( id_block conv_block : BlockName)
    (f r s : Nat) (first : Bool) :
    inputShapeOf (_residual_block t id_block conv_block f r s first)
      = inputShapeOf t := by
  unfold _residual_block
  apply inputShapeOf_foldl
  intro acc i
  by_cases h : i = 0 ∧ first = false
  · rw [if_pos h]; rfl
  · rw [if_neg h]; rfl

/-- The stage loop preserves the underlying input shape. -/
lemma inputShapeOf_stageLoop ( id_block conv_block : BlockName) :
    ∀ (l : List (Nat × Nat)) (f : Nat) (t : Tensor),
      inputShapeOf (stageLoop id_block conv_block l f t) = inputShapeOf t := by
  intro l
  induction l with
  | nil => intro f t; rfl
  | cons p rest ih =>
      obtain ⟨i, r⟩ := p
      intro f t
      simp only [stageLoop]
      rw [ih]
      by_cases h : i = 0
      · rw [if_pos h, inputShapeOf_residual]
      · rw [if_neg h, inputShapeOf_residual]

/-- C10: when the backend ordering is tf, build permutes the input shape
(s0, s1, s2) cyclically to (s1, s2, s0) before creating the Input layer;
under any other ordering the Input layer receives the shape unchanged. -/
theorem build_permutes_shape_when_tf (dimOrdering : String)
    (s0 s1 s2 num_outputs : Nat) (repetitions : List Nat) (block_fn : String) :
    ∃ t, ResnetBuilder.build dimOrdering [s0, s1, s2] num_outputs repetitions block_fn
        = Except.ok t
      ∧ inputShapeOf t
        = some (if dimOrdering = "tf" then [s1, s2, s0] else [s0, s1, s2]) := by
  unfold ResnetBuilder.build
  rw [if_neg (by simp)]
  refine ⟨_, rfl, ?_⟩
  simp only [inputShapeOf, inputShapeOf_stageLoop, _bn_relu, _conv_bn_relu]
  simp [List.getD]

/-- C7: for every valid input shape, the model returned by build ends in
a Dense layer with softmax activation and num_outputs units, applied to a
flatten of an average pooling whose pool size is exactly the spatial
extent (row and column axes of the static shape) of its input, which is
itself a batch-norm/relu of the stacked stages; consequently the last
entry of the model output shape is num_outputs. -/
theorem build_classifier_structure (dimOrdering : String) (input_shape : List Nat)
    (num_outputs : Nat) (repetitions : List Nat) (block_fn : String)
    (h : input_shape.length = 3) :
    ∃ u rs cs,
      ResnetBuilder.build dimOrdering input_shape num_outputs repetitions block_fn
          = Except.ok (Tensor.dense num_outputs "he_normal" "softmax"
              (Tensor.flatten (Tensor.averagePooling2D (rs, cs) (1, 1)
                (_bn_relu (_handle_dim_ordering dimOrdering).channelAxis u))))
      ∧ rs = (int_shape (_handle_dim_ordering dimOrdering)
            (_bn_relu (_handle_dim_ordering dimOrdering).channelAxis u)).getD
            (_handle_dim_ordering dimOrdering).rowAxis 0
      ∧ cs = (int_shape (_handle_dim_ordering dimOrdering)
            (_bn_relu (_handle_dim_ordering dimOrdering).channelAxis u)).getD
            (_handle_dim_ordering dimOrdering).colAxis 0
      ∧ (int_shape (_handle_dim_ordering dimOrdering)
            (Tensor.dense num_outputs "he_normal" "softmax"
              (Tensor.flatten (Tensor.averagePooling2D (rs, cs) (1, 1)
                (_bn_relu (_handle_dim_ordering dimOrdering).channelAxis u))))).getLast?
          = some num_outputs := by
  unfold ResnetBuilder.build
  rw [if_neg (by omega)]
  refine ⟨_, _, _, rfl, rfl, rfl, ?_⟩
  simp only [int_shape]
  rw [List.getLast?_concat]

/-- C7 witness at ordering tf, shape [3, 8, 8], five outputs, one stage
of two repetitions. -/
theorem build_classifier_structure_check :
    ([3, 8, 8] : List Nat).length = 3
    ∧ ∃ u rs cs,
      ResnetBuilder.build "tf" [3, 8, 8] 5 [2] "resnet"
          = Except.ok (Tensor.dense 5 "he_normal" "softmax"
              (Tensor.flatten (Tensor.averagePooling2D (rs, cs) (1, 1)
                (_bn_relu (_handle_dim_ordering "tf").channelAxis u))))
      ∧ rs = (int_shape (_handle_dim_ordering "tf")
            (_bn_relu (_handle_dim_ordering "tf").channelAxis u)).getD
            (_handle_dim_ordering "tf").rowAxis 0
      ∧ cs = (int_shape (_handle_dim_ordering "tf")
            (_bn_relu (_handle_dim_ordering "tf").channelAxis u)).getD
            (_handle_dim_ordering "tf").colAxis 0
      ∧ (int_shape (_handle_dim_ordering "tf")
            (Tensor.dense 5 "he_normal" "softmax"
              (Tensor.flatten (Tensor.averagePooling2D (rs, cs) (1, 1)
                (_bn_relu (_handle_dim_ordering "tf").channelAxis u))))).getLast?
          = some 5 :=
  ⟨rfl, build_classifier_structure "tf" [3, 8, 8] 5 [2] "resnet" rfl⟩

/-- C9: build_resnet_34 and build_resnet_50 agree on every input, both
delegating to ResnetBuilder.build with repetitions [3, 4, 6, 3]. -/
theorem build_resnet_34_eq_build_resnet_50 (dimOrdering : String)
    (input_shape : List Nat) (num_outputs : Nat) (block_fun : String) :
    ResnetBuilder.build_resnet_34 dimOrdering input_shape num_outputs block_fun
        = ResnetBuilder.build_resnet_50 dimOrdering input_shape num_outputs block_fun
    ∧ ResnetBuilder.build_resnet_34 dimOrdering input_shape num_outputs block_fun
        = ResnetBuilder.build dimOrdering input_shape num_outputs [3, 4, 6, 3] block_fun :=
  ⟨rfl, rfl⟩
